import Mathlib

/-!
Verification of the fitness-tracker backend core (`backend/server.py`).

Shallow embedding of the deterministic core of the FastAPI backend:
metric calculations (BMI / BMR / TDEE / macros / hydration), meal-suggestion
catalog lookup, daily-plan synthesis, task derivation, and completion-driven
progress accounting.

Modelling conventions:
* Python floats are modelled as exact rationals (`ℚ`).  Python `round(x, n)`
  is modelled as round-half-up at `n` decimals (the design document allows
  either half-up or half-to-even; half-up is used consistently here).
* Python `int(x)` (truncation toward zero) is modelled by `truncQ`.
* Python `None` is modelled by `Option.none`; MongoDB documents born from the
  pydantic models always carry every key, so `dict.get(k, default)` on such a
  document returns the stored value (possibly `None`), never the default.
* `uuid4` identifiers and `created_at` timestamps are environment effects and
  are not part of the embedded records.
* A raised Python exception is modelled explicitly (`Option String` / error
  results), never by a default value.
-/

namespace FitnessTracker

/-- Python `round(x, 1)` (half-up variant): round `10*x` to the nearest
integer, divide by 10. -/
def round1 (x : ℚ) : ℚ := (round (10 * x) : ℤ) / 10

/-- Python `round(x, 0)` (half-up variant): nearest integer, as a number. -/
def round0 (x : ℚ) : ℚ := (round x : ℤ)

/-- Python `int(x)`: truncation toward zero. -/
def truncQ (x : ℚ) : ℤ := if 0 ≤ x then ⌊x⌋ else ⌈x⌉

/-- Python `str.lower()` (ASCII data in this code base). -/
def lowerStr (s : String) : String := ⟨s.data.map Char.toLower⟩

/-- Does list `w` occur at the head of `l`? (`==` on characters). -/
def listLeads : List Char → List Char → Bool
  | [], _ => true
  | _ :: _, [] => false
  | a :: as, b :: bs => a == b && listLeads as bs

/-- Does list `w` occur as a contiguous run inside `l`? -/
def listHas (w : List Char) : List Char → Bool
  | [] => listLeads w []
  | c :: rest => listLeads w (c :: rest) || listHas w rest

/-- Python `w in s` on strings: substring containment. -/
def strContains (s w : String) : Bool := listHas w.data s.data

/-! ## MetricsCalculator (`server.py` lines 271–331) -/

/-- `calculate_bmi` (server.py 271–273): `round(weight_kg / (height_cm/100)**2, 1)`.
There is no validation of `height_cm`; in Python `height_cm = 0` raises an
unhandled `ZeroDivisionError` (in this total model, division by zero yields 0,
a point never relied on by any theorem below). -/
def calculate_bmi (weight_kg height_cm : ℚ) : ℚ :=
  let height_m := height_cm / 100
  round1 (weight_kg / height_m ^ 2)

/-- The `age_map.get(age_group, 30)` dictionary lookup in `calculate_bmr`. -/
def ageOf (age_group : String) : ℚ :=
  if age_group = "18-25" then 22
  else if age_group = "26-35" then 30
  else if age_group = "36-45" then 40
  else if age_group = "46+" then 50
  else 30

/-- `calculate_bmr` (server.py 275–286): Mifflin-St Jeor with bucketed age. -/
def calculate_bmr (weight_kg height_cm : ℚ) (age_group gender : String) : ℚ :=
  let age := ageOf age_group
  if lowerStr gender = "male" then
    round1 (10 * weight_kg + 6.25 * height_cm - 5 * age + 5)
  else
    round1 (10 * weight_kg + 6.25 * height_cm - 5 * age - 161)

/-- The `activity_factors.get(activity_level, 1.375)` lookup in `calculate_tdee`. -/
def activityFactorOf (activity_level : String) : ℚ :=
  if activity_level = "Sedentary" then 1.2
  else if activity_level = "Light" then 1.375
  else if activity_level = "Moderate" then 1.55
  else if activity_level = "Very Active" then 1.725
  else 1.375

/-- `calculate_tdee` (server.py 288–296). -/
def calculate_tdee (bmr : ℚ) (activity_level : String) : ℚ :=
  round1 (bmr * activityFactorOf activity_level)

/-- Result record of `calculate_macros`. -/
structure Macros where
  calories : ℚ
  protein_g : ℚ
  carbs_g : ℚ
  fat_g : ℚ
  deriving Repr, DecidableEq

/-- Goal-adjusted calorie total before rounding (the `calories` local of
`calculate_macros`). -/
def goalCalories (tdee : ℚ) (primary_goal : String) : ℚ :=
  if primary_goal = "Lose weight" then tdee * 0.85
  else if primary_goal = "Gain muscle" then tdee * 1.15
  else tdee

/-- Protein density per kg chosen by `calculate_macros`. -/
def proteinPerKg (primary_goal : String) : ℚ :=
  if primary_goal = "Lose weight" then 2.0
  else if primary_goal = "Gain muscle" then 2.2
  else 1.8

/-- `calculate_macros` (server.py 298–325). -/
def calculate_macros (tdee : ℚ) (primary_goal : String) (weight_kg : ℚ) : Macros :=
  let calories := goalCalories tdee primary_goal
  let protein_g := weight_kg * proteinPerKg primary_goal
  let protein_calories := protein_g * 4
  let fat_calories := calories * 0.275
  let fat_g := fat_calories / 9
  let carb_calories := calories - protein_calories - fat_calories
  let carb_g := carb_calories / 4
  { calories := round0 calories
    protein_g := round1 protein_g
    carbs_g := round1 carb_g
    fat_g := round1 fat_g }

/-- `calculate_hydration_target` (server.py 327–331). -/
def calculate_hydration_target (weight_kg : ℚ) : ℚ :=
  max 1800 (weight_kg * 32) + 1000

/-! ## Data model (`server.py` lines 73–206) -/

/-- `OnboardingAnswers` (server.py 73–102). -/
structure OnboardingAnswers where
  full_name : String
  age_group : String
  gender : String
  height_cm : ℚ
  weight_kg : ℚ
  activity_level : String
  steps_per_day : String
  exercise_frequency : String
  sleep_hours : String
  water_intake : String
  diet_type : String
  fruits_vegetables : String
  smoking_alcohol : String
  stress_level : String
  allergies : List String := []
  cuisine_preference : String := "Mixed"
  primary_goal : String
  equipment_access : String
  preferred_workout_time : String
  wake_time : String
  bed_time : String
  training_days : List String := []
  deriving Repr, DecidableEq

/-- `UserProfile` (server.py 111–147), without the environment-supplied
`created_at` / `updated_at` timestamps. -/
structure UserProfile where
  user_id : String
  gender : String
  age_group : String
  height_cm : ℚ
  weight_kg : ℚ
  bmi : ℚ
  activity_level : String
  diet_type : String
  allergies : List String
  smoking_alcohol : String
  stress_level : String
  primary_goal : String
  equipment_access : String
  wake_time : String
  bed_time : String
  training_days : List String
  preferred_workout_time : String
  bmr : ℚ
  tdee : ℚ
  calories_target : ℚ
  protein_g : ℚ
  carbs_g : ℚ
  fat_g : ℚ
  hydration_target_ml : ℚ
  sleep_target_hrs : ℚ
  step_target : ℤ
  deriving Repr, DecidableEq

/-- The profile construction performed by `save_onboarding_answers`
(server.py 588–623): metric pipeline plus copied answer fields.  No input
validation takes place anywhere in that endpoint. -/
def computeProfile (user_id : String) (a : OnboardingAnswers) : UserProfile :=
  let bmi := calculate_bmi a.weight_kg a.height_cm
  let bmr := calculate_bmr a.weight_kg a.height_cm a.age_group a.gender
  let tdee := calculate_tdee bmr a.activity_level
  let macros := calculate_macros tdee a.primary_goal a.weight_kg
  let hydration := calculate_hydration_target a.weight_kg
  { user_id := user_id
    gender := a.gender
    age_group := a.age_group
    height_cm := a.height_cm
    weight_kg := a.weight_kg
    bmi := bmi
    activity_level := a.activity_level
    diet_type := a.diet_type
    allergies := a.allergies
    smoking_alcohol := a.smoking_alcohol
    stress_level := a.stress_level
    primary_goal := a.primary_goal
    equipment_access := a.equipment_access
    wake_time := a.wake_time
    bed_time := a.bed_time
    training_days := a.training_days
    preferred_workout_time := a.preferred_workout_time
    bmr := bmr
    tdee := tdee
    calories_target := macros.calories
    protein_g := macros.protein_g
    carbs_g := macros.carbs_g
    fat_g := macros.fat_g
    hydration_target_ml := hydration
    sleep_target_hrs := 8.0
    step_target := 8000 }

/-! ## ContentCatalog (`server.py` lines 733–761) -/

/-- The `veg_meals` dictionary of `get_meal_suggestions`. -/
def veg_meals (meal_type : String) : List String :=
  if meal_type = "breakfast" then
    ["Oats with fruits", "Poha with vegetables", "Upma with nuts", "Smoothie bowl"]
  else if meal_type = "lunch" then
    ["Dal-Chawal with vegetables", "Quinoa salad", "Vegetable curry with roti", "Paneer bhurji"]
  else if meal_type = "dinner" then
    ["Light dal with roti", "Vegetable soup", "Grilled paneer salad", "Curd rice"]
  else if meal_type = "snack" then
    ["Mixed nuts", "Fruit salad", "Yogurt with berries", "Sprouts chaat"]
  else []

/-- The `non_veg_meals` dictionary of `get_meal_suggestions`. -/
def non_veg_meals (meal_type : String) : List String :=
  if meal_type = "breakfast" then
    ["Egg omelette with toast", "Scrambled eggs", "Egg sandwich", "Protein smoothie"]
  else if meal_type = "lunch" then
    ["Grilled chicken with rice", "Fish curry with roti", "Chicken salad", "Egg curry"]
  else if meal_type = "dinner" then
    ["Grilled fish with vegetables", "Chicken soup", "Lean meat with salad", "Egg bhurji"]
  else if meal_type = "snack" then
    ["Boiled eggs", "Chicken strips", "Protein bar", "Greek yogurt"]
  else []

/-- The pre-filter suggestion selection of `get_meal_suggestions`
(server.py 750–755): vegetarian list, non-veg list, or their concatenation. -/
def catalogSuggestions (meal_type diet_type : String) : List String :=
  if diet_type = "Vegetarian" then veg_meals meal_type
  else if diet_type = "Non-veg" then non_veg_meals meal_type
  else veg_meals meal_type ++ non_veg_meals meal_type

/-- The dairy denylist of `get_meal_suggestions` (server.py 759). -/
def dairyWords : List String := ["paneer", "curd", "yogurt"]

/-- `get_meal_suggestions` (server.py 733–761). -/
def get_meal_suggestions (meal_type diet_type : String) (allergies : List String) :
    List String :=
  let suggestions := catalogSuggestions meal_type diet_type
  let suggestions :=
    if "dairy" ∈ allergies then
      suggestions.filter fun s => !(dairyWords.any fun word => strContains (lowerStr s) word)
    else suggestions
  suggestions.take 4

/-! ## PlanSynthesizer (`server.py` lines 654–806) -/

/-- One of the section dictionaries inside a workout plan (server.py 771–798);
a section carries either a `duration` or a `sets`/`reps` prescription. -/
structure WorkoutSection where
  name : String
  exercises : List String
  duration : Option ℤ := none
  sets : Option ℤ := none
  reps : Option String := none
  deriving Repr, DecidableEq

/-- `Workout` (server.py 159–163); the Python field `type` is `type_` here. -/
structure Workout where
  type_ : String
  duration_minutes : ℤ
  sections : List WorkoutSection
  calories_burned : ℚ := 0
  deriving Repr, DecidableEq

/-- `Meal` (server.py 149–157). -/
structure Meal where
  name : String
  time : String
  calories : ℚ
  protein_g : ℚ
  carbs_g : ℚ
  fat_g : ℚ
  suggestions : List String := []
  recipe_id : Option String := none
  deriving Repr, DecidableEq

/-- The `sleep_window` dictionary `{start, end}`; `end` is a Lean keyword, so
the field is `end_`. -/
structure SleepWindow where
  start : String
  end_ : String
  deriving Repr, DecidableEq

/-- The `macros` dictionary `{protein, carbs, fat}` of a `DailyPlan`. -/
structure PlanMacros where
  protein : ℚ
  carbs : ℚ
  fat : ℚ
  deriving Repr, DecidableEq

/-- `DailyPlan` (server.py 165–176), without the environment-supplied `id`
(uuid4) and `created_at`. -/
structure DailyPlan where
  user_id : String
  date : String
  meals : List Meal
  workout : Workout
  water_goal_ml : ℚ
  sleep_window : SleepWindow
  step_target : ℤ
  calories_target : ℚ
  macros : PlanMacros
  deriving Repr, DecidableEq

/-- `generate_workout_plan` (server.py 763–806). -/
def generate_workout_plan (profile : UserProfile) : Workout :=
  let equipment := profile.equipment_access
  let goal := profile.primary_goal
  let (workout_type, sections, duration) :
      String × List WorkoutSection × ℤ :=
    if equipment = "None" then
      ("home",
       [{ name := "Warmup", exercises := ["Jumping jacks", "Arm circles"], duration := some 5 },
        { name := "Bodyweight", exercises := ["Push-ups", "Squats", "Planks"],
          sets := some 3, reps := some "12-15" },
        { name := "Cardio", exercises := ["High knees", "Burpees"], duration := some 10 }],
       30)
    else if equipment = "Full gym" then
      ("gym",
       if goal = "Gain muscle" then
         [{ name := "Warmup", exercises := ["Treadmill walk"], duration := some 5 },
          { name := "Compound", exercises := ["Bench press", "Squats", "Deadlifts"],
            sets := some 4, reps := some "6-8" },
          { name := "Accessories", exercises := ["Bicep curls", "Tricep extensions"],
            sets := some 3, reps := some "10-12" }]
       else
         [{ name := "Warmup", exercises := ["Treadmill"], duration := some 5 },
          { name := "Cardio", exercises := ["Running", "Cycling"], duration := some 20 },
          { name := "Strength", exercises := ["Light weights"],
            sets := some 3, reps := some "12-15" }],
       45)
    else
      ("home",
       [{ name := "Warmup", exercises := ["Dynamic stretching"], duration := some 5 },
        { name := "Resistance", exercises := ["Band pulls", "Dumbbell rows"],
          sets := some 3, reps := some "10-12" },
        { name := "Cardio", exercises := ["Jump rope", "Mountain climbers"],
          duration := some 10 }],
       35)
  { type_ := workout_type
    duration_minutes := duration
    sections := sections
    calories_burned := (duration : ℚ) * 5 }

/-- `generate_daily_plan` (server.py 654–731): the template path.  Meals are
appended in source order breakfast, lunch, dinner, snack. -/
def generate_daily_plan (user_id date : String) (profile : UserProfile) : DailyPlan :=
  let breakfast_calories := profile.calories_target * 0.25
  let lunch_calories := profile.calories_target * 0.35
  let dinner_calories := profile.calories_target * 0.3
  let snack_calories := profile.calories_target * 0.1
  let meals : List Meal :=
    [{ name := "Healthy Breakfast", time := "07:30", calories := breakfast_calories,
       protein_g := profile.protein_g * 0.25, carbs_g := profile.carbs_g * 0.3,
       fat_g := profile.fat_g * 0.2,
       suggestions := get_meal_suggestions "breakfast" profile.diet_type profile.allergies },
     { name := "Balanced Lunch", time := "12:30", calories := lunch_calories,
       protein_g := profile.protein_g * 0.4, carbs_g := profile.carbs_g * 0.4,
       fat_g := profile.fat_g * 0.4,
       suggestions := get_meal_suggestions "lunch" profile.diet_type profile.allergies },
     { name := "Light Dinner", time := "19:00", calories := dinner_calories,
       protein_g := profile.protein_g * 0.25, carbs_g := profile.carbs_g * 0.2,
       fat_g := profile.fat_g * 0.3,
       suggestions := get_meal_suggestions "dinner" profile.diet_type profile.allergies },
     { name := "Healthy Snack", time := "16:00", calories := snack_calories,
       protein_g := profile.protein_g * 0.1, carbs_g := profile.carbs_g * 0.1,
       fat_g := profile.fat_g * 0.1,
       suggestions := get_meal_suggestions "snack" profile.diet_type profile.allergies }]
  { user_id := user_id
    date := date
    meals := meals
    workout := generate_workout_plan profile
    water_goal_ml := profile.hydration_target_ml
    sleep_window := { start := profile.bed_time, end_ := profile.wake_time }
    step_target := profile.step_target
    calories_target := profile.calories_target
    macros := { protein := profile.protein_g, carbs := profile.carbs_g,
                fat := profile.fat_g } }

/-! ## TaskDeriver (`server.py` lines 889–936) -/

/-- Python `str.title()`: upper-case every letter that starts a word,
lower-case the rest. -/
def titleChars : List Char → Bool → List Char
  | [], _ => []
  | c :: cs, startWord =>
    (if startWord then c.toUpper else c.toLower) :: titleChars cs (!c.isAlpha)

/-- Python `str.title()` on a string. -/
def pyTitle (s : String) : String := ⟨titleChars s.data true⟩

/-- `Task` (server.py 178–187), without the environment-supplied `id` (uuid4)
and `created_at`; the Python field `type` is `type_`.  The `due_at` datetime is
built by `strptime` from the plan date and a wall-clock time, kept here as the
pair `due_date`/`due_time`. -/
structure Task where
  user_id : String
  date : String
  type_ : String
  title : String
  due_date : String
  due_time : String
  completed : Bool := false
  completed_at : Option String := none
  deriving Repr, DecidableEq

/-- `generate_tasks_from_plan` (server.py 889–936): one task per meal, then a
workout, a water and a sleep task.  Meal titles use Python `int()`
(truncation), water titles likewise. -/
def generate_tasks_from_plan (plan : DailyPlan) (user_id : String) : List Task :=
  let date_str := plan.date
  let mealTasks := plan.meals.map fun meal =>
    { user_id := user_id
      date := date_str
      type_ := "meal"
      title := meal.name ++ " (" ++ toString (truncQ meal.calories) ++ " kcal)"
      due_date := date_str
      due_time := meal.time : Task }
  let workout := plan.workout
  let workoutTask : Task :=
    { user_id := user_id
      date := date_str
      type_ := "workout"
      title := pyTitle workout.type_ ++ " Workout (" ++ toString workout.duration_minutes
                 ++ " min)"
      due_date := date_str
      due_time := "18:00" }
  let waterTask : Task :=
    { user_id := user_id
      date := date_str
      type_ := "water"
      title := "Drink " ++ toString (truncQ plan.water_goal_ml) ++ "ml water"
      due_date := date_str
      due_time := "20:00" }
  let sleepTask : Task :=
    { user_id := user_id
      date := date_str
      type_ := "sleep"
      title := "Sleep by " ++ plan.sleep_window.start
      due_date := date_str
      due_time := plan.sleep_window.start }
  mealTasks ++ [workoutTask, waterTask, sleepTask]

/-! ## ProgressAccumulator (`server.py` lines 192–203 and 938–966) -/

/-- `Progress` (server.py 192–203), without the environment-supplied
`updated_at`.  Every numeric field is `Optional` with default `None`; only the
streak counters default to `0`. -/
structure Progress where
  user_id : String
  date : String
  weight_kg : Option ℚ := none
  steps : Option ℤ := none
  water_ml : Option ℚ := none
  workouts_minutes : Option ℤ := none
  meals_completed : Option ℤ := none
  fitness_score : Option ℚ := none
  streak_current : ℤ := 0
  streak_max : ℤ := 0
  deriving Repr, DecidableEq

/-- `update_user_progress` (server.py 938–966).

Inputs mirror the database reads of the Python function: `task?` is
`db.tasks.find_one({"id": task_id})` and `progress?` is
`db.progress.find_one({"user_id": user_id, "date": today})`, where `today` is
`date.today()` — the task's own `date` field is never consulted for the key.

The result is the final state of the progress document stored under
`(user_id, today)` paired with the exception raised, if any:
* task missing → early return, store untouched;
* otherwise a default document is inserted first when none exists;
* a completed meal task reads `progress.get("meals_completed", 0)`, which
  returns the stored value — `None` on a document fresh from the `Progress`
  model, since the key is present — so Python evaluates `None + 1` and raises
  `TypeError`, after the default document was already inserted;
* a workout task sets `workouts_minutes` to the constant 30;
* any other task type performs no `$set`. -/
def update_user_progress (task? : Option Task) (progress? : Option Progress)
    (user_id today : String) : Option Progress × Option String :=
  match task? with
  | none => (progress?, none)
  | some task =>
    let progress : Progress :=
      match progress? with
      | some p => p
      | none => { user_id := user_id, date := today }
    if task.type_ = "meal" then
      match progress.meals_completed with
      | none =>
        (some progress, some "TypeError: unsupported operand type(s) for +: NoneType and int")
      | some current_meals =>
        (some { progress with meals_completed := some (current_meals + 1) }, none)
    else if task.type_ = "workout" then
      (some { progress with workouts_minutes := some 30 }, none)
    else
      (some progress, none)

/-! ## Daily-plan endpoints (`server.py` lines 575–634 and 810–830) -/

/-- The MongoDB filter `{"user_id": uid, "date": date}` on `daily_plans`. -/
def planKeyMatches (uid date : String) (p : DailyPlan) : Bool :=
  p.user_id == uid && p.date == date

/-- `db.daily_plans.find_one({"user_id": uid, "date": date})`: first stored
match. -/
def find_plan (store : List DailyPlan) (uid date : String) : Option DailyPlan :=
  store.find? (planKeyMatches uid date)

/-- Number of plans stored for one `(user, date)` key. -/
def planCount (store : List DailyPlan) (uid date : String) : ℕ :=
  (store.filter (planKeyMatches uid date)).length

/-- `get_today_plan` (server.py 810–830) as a store transition: return the
stored plan when one exists; otherwise 404 without a profile, else generate,
insert and return.  The result pairs the response with the new store. -/
def get_today_plan (store : List DailyPlan) (profile? : Option UserProfile)
    (uid today : String) : Except String (DailyPlan × List DailyPlan) :=
  match find_plan store uid today with
  | some plan => .ok (plan, store)
  | none =>
    match profile? with
    | none => .error "404: Profile not found. Please complete onboarding."
    | some profile =>
      let plan := generate_daily_plan uid today profile
      .ok (plan, store ++ [plan])

/-- The plan insertion performed unconditionally at the end of
`save_onboarding_answers` (server.py 627–632): a fresh plan is generated for
today and inserted with no existence check. -/
def onboarding_insert_plan (store : List DailyPlan) (uid today : String)
    (profile : UserProfile) : List DailyPlan :=
  store ++ [generate_daily_plan uid today profile]

/-! ## Spec-side definitions and concrete instances used by the theorems -/

/-- The macro formulas exactly as the claim words them (goal-adjusted
calories rounded to an integer, protein as weight × goal density, fat as
27.5 % of the goal-adjusted calories over 9, carbs as the remaining calories
over 4, each rounded to 1 decimal) — stated independently of
`calculate_macros` so the two can be compared. -/
def macrosSpec (tdee : ℚ) (primary_goal : String) (weight_kg : ℚ) : Macros :=
  { calories := round0 (goalCalories tdee primary_goal)
    protein_g := round1 (weight_kg * proteinPerKg primary_goal)
    carbs_g := round1 ((goalCalories tdee primary_goal
        - weight_kg * proteinPerKg primary_goal * 4
        - goalCalories tdee primary_goal * 0.275) / 4)
    fat_g := round1 (goalCalories tdee primary_goal * 0.275 / 9) }

/-- A pathological but schema-valid onboarding record: positive finite height
and weight of 1, gender Female, age bucket 46+. -/
def answersTiny : OnboardingAnswers :=
  { full_name := "Tiny"
    age_group := "46+"
    gender := "Female"
    height_cm := 1
    weight_kg := 1
    activity_level := "Sedentary"
    steps_per_day := "<3k"
    exercise_frequency := "None"
    sleep_hours := "5-7h"
    water_intake := "1-2L"
    diet_type := "Balanced"
    fruits_vegetables := "Daily"
    smoking_alcohol := "No"
    stress_level := "Low"
    primary_goal := "Maintain"
    equipment_access := "None"
    preferred_workout_time := "morning"
    wake_time := "07:00"
    bed_time := "23:00" }

/-- An ordinary onboarding record: 170 cm, 70 kg. -/
def answersOk : OnboardingAnswers :=
  { full_name := "Alex"
    age_group := "26-35"
    gender := "Male"
    height_cm := 170
    weight_kg := 70
    activity_level := "Moderate"
    steps_per_day := "6-10k"
    exercise_frequency := "3-4"
    sleep_hours := "7-9h"
    water_intake := "2-3L"
    diet_type := "Vegetarian"
    fruits_vegetables := "Daily"
    smoking_alcohol := "No"
    stress_level := "Moderate"
    primary_goal := "Lose weight"
    equipment_access := "None"
    preferred_workout_time := "evening"
    wake_time := "07:00"
    bed_time := "23:00" }

/-- The profile derived from `answersOk` by the onboarding pipeline. -/
def profileOk : UserProfile := computeProfile "u1" answersOk

/-- A daily plan with 4 meals whose breakfast carries the fractional calorie
value 2003 × 0.25 = 500.75 (any integer `calories_target ≡ 3 (mod 4)`
produces such a fraction). -/
def planX : DailyPlan :=
  { user_id := "u1"
    date := "2026-10-12"
    meals :=
      [{ name := "Healthy Breakfast", time := "07:30", calories := 500.75,
         protein_g := 31.3, carbs_g := 75.2, fat_g := 12.2 },
       { name := "Balanced Lunch", time := "12:30", calories := 701.05,
         protein_g := 50.1, carbs_g := 100.2, fat_g := 24.4 },
       { name := "Light Dinner", time := "19:00", calories := 600.9,
         protein_g := 31.3, carbs_g := 50.1, fat_g := 18.3 },
       { name := "Healthy Snack", time := "16:00", calories := 200.3,
         protein_g := 12.5, carbs_g := 25.1, fat_g := 6.1 }]
    workout := { type_ := "home", duration_minutes := 30, sections := [],
                 calories_burned := 150 }
    water_goal_ml := 3240
    sleep_window := { start := "23:00", end_ := "07:00" }
    step_target := 8000
    calories_target := 2003
    macros := { protein := 125.1, carbs := 250.4, fat := 61.2 } }

/-- A completed meal task, as produced by task derivation and then marked
completed via `PUT /tasks/{id}`. -/
def mealTaskX : Task :=
  { user_id := "u1"
    date := "2026-10-12"
    type_ := "meal"
    title := "Healthy Breakfast (500 kcal)"
    due_date := "2026-10-12"
    due_time := "07:30"
    completed := true }

/-- A completed sleep task dated 2026-10-11, completed while the server's
current date is 2026-10-12. -/
def staleTaskX : Task :=
  { user_id := "u1"
    date := "2026-10-11"
    type_ := "sleep"
    title := "Sleep by 23:00"
    due_date := "2026-10-11"
    due_time := "23:00"
    completed := true }

/-! ## Shared rounding lemmas -/

theorem abs_round0_sub (x : ℚ) : |round0 x - x| ≤ 1 / 2 := by
  rw [abs_sub_comm]
  simpa [round0] using abs_sub_round x

theorem abs_round1_sub (x : ℚ) : |round1 x - x| ≤ 1 / 20 := by
  have h := abs_sub_round (10 * x)
  rw [abs_sub_comm] at h
  have h10 : round1 x - x = (((round (10 * x) : ℤ) : ℚ) - 10 * x) / 10 := by
    simp only [round1]; ring
  rw [h10, abs_div]
  rw [show |(10 : ℚ)| = 10 by norm_num]
  linarith

theorem round1_lb (x : ℚ) : x - 1 / 20 ≤ round1 x := by
  have h := abs_le.mp (abs_round1_sub x)
  linarith [h.1]

theorem round1_ub (x : ℚ) : round1 x ≤ x + 1 / 20 := by
  have h := abs_le.mp (abs_round1_sub x)
  linarith [h.2]

theorem round1_nonneg {x : ℚ} (h : 0 ≤ x) : 0 ≤ round1 x := by
  have : (0 : ℤ) ≤ round (10 * x) := by
    rw [round_eq]
    exact Int.floor_nonneg.mpr (by linarith)
  simp only [round1]
  positivity

/-! ## Claims -/

/-- Claim C9. For every profile, the synthesized `DailyPlan` assigns meal calories
as the fixed fractions 0.25 (breakfast), 0.35 (lunch), 0.30 (dinner), 0.10
(snack) of `calories_target`; the four fractions sum to exactly 1; and the four
meals' calories sum to exactly `calories_target` (no rounding is applied to
meal calories at all). -/
theorem plan_meal_calories_are_fixed_fractions (uid date : String)
    (profile : UserProfile) :
    (generate_daily_plan uid date profile).meals.map Meal.calories =
      [profile.calories_target * 0.25, profile.calories_target * 0.35,
       profile.calories_target * 0.3, profile.calories_target * 0.1] ∧
    (0.25 + 0.35 + 0.3 + 0.1 : ℚ) = 1 ∧
    ((generate_daily_plan uid date profile).meals.map Meal.calories).sum =
      (generate_daily_plan uid date profile).calories_target := by
  refine ⟨rfl, by norm_num, ?_⟩
  simp only [generate_daily_plan, List.map_cons, List.map_nil, List.sum_cons,
    List.sum_nil]
  ring

/-- Claim C2, counterexample. The claim states that `calculate_bmi` fails with
`InvalidInputError` for every `height_cm ≤ 0`.  The source function
(server.py 271–273) performs no validation: at `height_cm = -175` it returns
the ordinary value 24.5 (the negative height squares away), and no error type
named `InvalidInputError` exists anywhere in the repository. -/
theorem bmi_negative_height_returns_value : calculate_bmi 75 (-175) = 24.5 := by
  simp only [calculate_bmi, round1]
  norm_num [round_eq]

/-- Claim C2, amended. For every `height_cm > 0`, `calculate_bmi` returns
`weight_kg / (height_cm/100)²` rounded to 1 decimal; a negative `height_cm` is
not rejected but produces the same value as its absolute value.  (There is no
`InvalidInputError`; `height_cm = 0` raises an unhandled `ZeroDivisionError`
in Python rather than any user-visible rejection.) -/
theorem bmi_formula_and_no_validation (w h : ℚ) :
    (0 < h → calculate_bmi w h = round1 (w / (h / 100) ^ 2)) ∧
    (h < 0 → calculate_bmi w h = calculate_bmi w (-h)) := by
  constructor
  · intro _
    rfl
  · intro _
    simp only [calculate_bmi]
    ring_nf

/-- Witness for `bmi_formula_and_no_validation` at `w = 75`, `h = 175` and
`h = -175`. -/
theorem bmi_formula_and_no_validation_witness :
    calculate_bmi 75 175 = round1 (75 / ((175 : ℚ) / 100) ^ 2) ∧
    calculate_bmi 75 (-175) = calculate_bmi 75 175 := by
  constructor
  · exact (bmi_formula_and_no_validation 75 175).1 (by norm_num)
  · have h := (bmi_formula_and_no_validation 75 (-175)).2 (by norm_num)
    simpa using h

/-- Claim C10. When `"dairy"` is not among the allergies, `get_meal_suggestions`
filters nothing: the result is exactly the unfiltered catalog lookup truncated
to 4 entries, so every other allergen string (peanut, gluten, other, …) has no
effect. -/
theorem suggestions_without_dairy_unfiltered (meal_type diet_type : String)
    (allergies : List String) (h : "dairy" ∉ allergies) :
    get_meal_suggestions meal_type diet_type allergies =
      (catalogSuggestions meal_type diet_type).take 4 := by
  simp only [get_meal_suggestions, if_neg h]

/-- Witness for `suggestions_without_dairy_unfiltered` with allergies
`["peanut", "gluten", "other"]`. -/
theorem suggestions_without_dairy_unfiltered_witness :
    "dairy" ∉ (["peanut", "gluten", "other"] : List String) ∧
    get_meal_suggestions "lunch" "Non-veg" ["peanut", "gluten", "other"] =
      (catalogSuggestions "lunch" "Non-veg").take 4 :=
  ⟨by decide,
   suggestions_without_dairy_unfiltered "lunch" "Non-veg"
     ["peanut", "gluten", "other"] (by decide)⟩

/-- Claim C8. With `"dairy"` declared, every returned suggestion is free of
"paneer", "curd" and "yogurt" (checked on the lower-cased suggestion, i.e.
case-insensitively), the result has at most 4 entries, and it is a sublist of
the catalog lookup — the original order is preserved. -/
theorem dairy_filter_sound (meal_type diet_type : String)
    (allergies : List String) (hd : "dairy" ∈ allergies) :
    (∀ s ∈ get_meal_suggestions meal_type diet_type allergies,
        strContains (lowerStr s) "paneer" = false ∧
        strContains (lowerStr s) "curd" = false ∧
        strContains (lowerStr s) "yogurt" = false) ∧
    (get_meal_suggestions meal_type diet_type allergies).length ≤ 4 ∧
    (get_meal_suggestions meal_type diet_type allergies).Sublist
      (catalogSuggestions meal_type diet_type) := by
  simp only [get_meal_suggestions, if_pos hd]
  refine ⟨?_, ?_, ?_⟩
  · intro s hs
    have hs' := List.take_subset 4 _ hs
    have hp := (List.mem_filter.mp hs').2
    simp only [dairyWords, List.any_cons, List.any_nil, Bool.not_eq_true',
      Bool.or_eq_false_iff] at hp
    exact ⟨hp.1, hp.2.1, hp.2.2.1⟩
  · exact List.length_take_le 4 _
  · exact (List.take_sublist 4 _).trans (List.filter_sublist _)

/-- Witness for `dairy_filter_sound` at `("dinner", "Vegetarian", ["dairy"])`. -/
theorem dairy_filter_sound_witness :
    "dairy" ∈ (["dairy"] : List String) ∧
    ((∀ s ∈ get_meal_suggestions "dinner" "Vegetarian" ["dairy"],
        strContains (lowerStr s) "paneer" = false ∧
        strContains (lowerStr s) "curd" = false ∧
        strContains (lowerStr s) "yogurt" = false) ∧
     (get_meal_suggestions "dinner" "Vegetarian" ["dairy"]).length ≤ 4 ∧
     (get_meal_suggestions "dinner" "Vegetarian" ["dairy"]).Sublist
       (catalogSuggestions "dinner" "Vegetarian")) :=
  ⟨by decide, dairy_filter_sound "dinner" "Vegetarian" ["dairy"] (by decide)⟩

/-- Claim C6, counterexample. The claim asserts
`calories ≈ 4·protein_g + 4·carbs_g + 9·fat_g` within 1 kcal for every
`tdee > 0` and `weight_kg > 0`.  At `tdee = 2073.45` (goal "Maintain",
`weight_kg = 25211/360 ≈ 70.03`) the four roundings conspire:
`calculate_macros` returns calories 2073, protein 126.1 g, carbs 249.8 g,
fat 63.4 g, and `4·126.1 + 4·249.8 + 9·63.4 = 2074.2`, off by 1.2 kcal. -/
theorem macros_energy_identity_off_by_more_than_one :
    0 < (41469 / 20 : ℚ) ∧ 0 < (25211 / 360 : ℚ) ∧
    calculate_macros (41469 / 20) "Maintain" (25211 / 360) =
      { calories := 2073, protein_g := 126.1, carbs_g := 249.8, fat_g := 63.4 } ∧
    1 < |(2073 : ℚ) - (4 * 126.1 + 4 * 249.8 + 9 * 63.4)| := by
  refine ⟨by norm_num, by norm_num, ?_, ?_⟩
  · simp [calculate_macros, goalCalories, proteinPerKg, Macros.mk.injEq]
    norm_num [round0, round1, round_eq]
  · have habs : |(2073 : ℚ) - (4 * 126.1 + 4 * 249.8 + 9 * 63.4)| = 6 / 5 := by
      rw [abs_sub_comm, abs_of_pos] <;> norm_num
    rw [habs]
    norm_num

/-- Claim C6, amended. `calculate_macros` computes exactly the claimed
formulas (`macrosSpec`), and the rounded outputs satisfy the energy identity
`calories ≈ 4·protein_g + 4·carbs_g + 9·fat_g` within 1.35 kcal (the four
independent roundings can push the discrepancy past 1 kcal — see the
counterexample — but never past 27/20). -/
theorem macros_formulas_and_energy_bound (tdee : ℚ) (primary_goal : String)
    (weight_kg : ℚ) :
    calculate_macros tdee primary_goal weight_kg =
      macrosSpec tdee primary_goal weight_kg ∧
    |(calculate_macros tdee primary_goal weight_kg).calories -
        (4 * (calculate_macros tdee primary_goal weight_kg).protein_g +
         4 * (calculate_macros tdee primary_goal weight_kg).carbs_g +
         9 * (calculate_macros tdee primary_goal weight_kg).fat_g)| ≤ 27 / 20 := by
  constructor
  · simp only [calculate_macros, macrosSpec]
  · set cal := goalCalories tdee primary_goal with hcal
    set p := weight_kg * proteinPerKg primary_goal with hp
    set f := cal * 0.275 / 9 with hf
    set c := (cal - p * 4 - cal * 0.275) / 4 with hc
    have hid : 4 * p + 4 * c + 9 * f = cal := by
      rw [hf, hc]; ring
    have h0 := abs_le.mp (abs_round0_sub cal)
    have hP := abs_le.mp (abs_round1_sub p)
    have hC := abs_le.mp (abs_round1_sub c)
    have hF := abs_le.mp (abs_round1_sub f)
    have hgoal : (calculate_macros tdee primary_goal weight_kg).calories -
        (4 * (calculate_macros tdee primary_goal weight_kg).protein_g +
         4 * (calculate_macros tdee primary_goal weight_kg).carbs_g +
         9 * (calculate_macros tdee primary_goal weight_kg).fat_g) =
        (round0 cal - cal) - (4 * (round1 p - p) + 4 * (round1 c - c) +
          9 * (round1 f - f)) := by
      simp only [calculate_macros]
      rw [← hcal, ← hp]
      rw [show weight_kg * proteinPerKg primary_goal * 4 = p * 4 from by rw [hp],
        ← hf, ← hc]
      linarith [hid]
    rw [hgoal, abs_le]
    constructor <;> linarith [h0.1, h0.2, hP.1, hP.2, hC.1, hC.2, hF.1, hF.2]

theorem ageOf_le (s : String) : ageOf s ≤ 50 := by
  unfold ageOf; split_ifs <;> norm_num

theorem activityFactorOf_ge (s : String) : 1.2 ≤ activityFactorOf s := by
  unfold activityFactorOf; split_ifs <;> norm_num

theorem calculate_bmr_lb (w h : ℚ) (ag g : String) :
    10 * w + 6.25 * h - 411 - 1 / 20 ≤ calculate_bmr w h ag g := by
  unfold calculate_bmr
  have ha := ageOf_le ag
  split_ifs with hg
  · linarith [round1_lb (10 * w + 6.25 * h - 5 * ageOf ag + 5)]
  · linarith [round1_lb (10 * w + 6.25 * h - 5 * ageOf ag - 161)]

theorem calculate_tdee_lb (b : ℚ) (al : String) (hb : 0 ≤ b) :
    1.2 * b - 1 / 20 ≤ calculate_tdee b al := by
  unfold calculate_tdee
  have h12 := activityFactorOf_ge al
  have hmul : 1.2 * b ≤ b * activityFactorOf al := by nlinarith
  linarith [round1_lb (b * activityFactorOf al)]

theorem proteinPerKg_bounds (g : String) :
    1.8 ≤ proteinPerKg g ∧ proteinPerKg g ≤ 2.2 := by
  unfold proteinPerKg; split_ifs <;> norm_num

theorem goalCalories_lb (T : ℚ) (g : String) (hT : 0 ≤ T) :
    0.85 * T ≤ goalCalories T g := by
  unfold goalCalories; split_ifs <;> linarith

/-- If `T` dominates `(6400/493)·w` then the carb calories stay non-negative
for every goal: `0.725 · goalCalories T g ≥ 4 · proteinPerKg g · w`. -/
theorem carb_calories_key (T w : ℚ) (hT : 6400 / 493 * w ≤ T) (hw : 0 ≤ w)
    (g : String) :
    4 * proteinPerKg g * w ≤ 0.725 * goalCalories T g := by
  have hT0 : 0 ≤ T := le_trans (by positivity) hT
  unfold proteinPerKg goalCalories
  split_ifs <;> linarith

/-- Claim C7, counterexample. The claim asserts `tdee ≥ bmr > 0` for *every*
onboarding input with positive finite height and weight.  The Mifflin-St Jeor
constants make the BMR formula negative for small anthropometrics:
`height_cm = weight_kg = 1` (positive, finite) with gender Female and age
bucket 46+ yields `bmr = round(10 + 6.25 - 250 - 161, 1) = -394.7 < 0`.
Nothing in `save_onboarding_answers` rejects such input. -/
theorem profile_bmr_can_be_negative :
    0 < answersTiny.height_cm ∧ 0 < answersTiny.weight_kg ∧
    (computeProfile "u1" answersTiny).bmr < 0 := by
  refine ⟨by norm_num [answersTiny], by norm_num [answersTiny], ?_⟩
  have hng : ¬ (lowerStr "Female" = "male") := by decide
  simp [computeProfile, calculate_bmr, ageOf, answersTiny, hng]
  norm_num [round1, round_eq]

/-- Claim C7, amended. For onboarding inputs in the realistic envelope
`height_cm ≥ 100`, `weight_kg ≥ 30` and `weight_kg ≤ 7.5·height_cm − 500`
(satisfied by all human anthropometrics, e.g. any weight up to 250 kg at
height 100 cm), and any age group, gender, activity level and goal strings,
the derived profile satisfies `tdee ≥ bmr > 0` and non-negative macro grams.
Outside this envelope the invariant genuinely fails (see
`profile_bmr_can_be_negative`). -/
theorem profile_invariants_on_realistic_inputs (uid : String)
    (a : OnboardingAnswers) (hh : 100 ≤ a.height_cm) (hw : 30 ≤ a.weight_kg)
    (hwh : a.weight_kg ≤ 7.5 * a.height_cm - 500) :
    0 < (computeProfile uid a).bmr ∧
    (computeProfile uid a).bmr ≤ (computeProfile uid a).tdee ∧
    0 ≤ (computeProfile uid a).protein_g ∧
    0 ≤ (computeProfile uid a).carbs_g ∧
    0 ≤ (computeProfile uid a).fat_g := by
  have hBlb : 10 * a.weight_kg + 6.25 * a.height_cm - 411 - 1 / 20 ≤
      calculate_bmr a.weight_kg a.height_cm a.age_group a.gender :=
    calculate_bmr_lb _ _ _ _
  have hB513 : 513.95 ≤ calculate_bmr a.weight_kg a.height_cm a.age_group a.gender := by
    linarith
  have hB0 : (0 : ℚ) < calculate_bmr a.weight_kg a.height_cm a.age_group a.gender := by
    linarith
  have hTlb : 1.2 * calculate_bmr a.weight_kg a.height_cm a.age_group a.gender - 1 / 20 ≤
      calculate_tdee (calculate_bmr a.weight_kg a.height_cm a.age_group a.gender)
        a.activity_level :=
    calculate_tdee_lb _ _ hB0.le
  have hBT : calculate_bmr a.weight_kg a.height_cm a.age_group a.gender ≤
      calculate_tdee (calculate_bmr a.weight_kg a.height_cm a.age_group a.gender)
        a.activity_level := by
    linarith
  have hTkey : 6400 / 493 * a.weight_kg ≤
      calculate_tdee (calculate_bmr a.weight_kg a.height_cm a.age_group a.gender)
        a.activity_level := by
    linarith
  have hT0 : (0 : ℚ) <
      calculate_tdee (calculate_bmr a.weight_kg a.height_cm a.age_group a.gender)
        a.activity_level := by
    linarith
  have hpd := proteinPerKg_bounds a.primary_goal
  have hcal0 : 0 ≤ goalCalories
      (calculate_tdee (calculate_bmr a.weight_kg a.height_cm a.age_group a.gender)
        a.activity_level) a.primary_goal := by
    have := goalCalories_lb _ a.primary_goal hT0.le
    linarith
  have hck := carb_calories_key _ a.weight_kg hTkey (by linarith) a.primary_goal
  refine ⟨hB0, hBT, ?_, ?_, ?_⟩
  · exact round1_nonneg (by nlinarith [hpd.1])
  · refine round1_nonneg ?_
    have : 0 ≤ goalCalories
        (calculate_tdee (calculate_bmr a.weight_kg a.height_cm a.age_group a.gender)
          a.activity_level) a.primary_goal -
        a.weight_kg * proteinPerKg a.primary_goal * 4 -
        goalCalories
          (calculate_tdee (calculate_bmr a.weight_kg a.height_cm a.age_group a.gender)
            a.activity_level) a.primary_goal * 0.275 := by
      nlinarith [hck]
    linarith
  · exact round1_nonneg (by positivity)

/-- Claim C3, counterexample. The claim says a meal task's title is
`"{meal.name} ({round(meal.calories)} kcal)"`.  The source
(server.py 900) uses `int(meal['calories'])`, which truncates: for the plan
`planX` (breakfast 500.75 kcal) the derived title reads "(500 kcal)" while
`round(500.75) = 501`. -/
theorem meal_task_title_truncates :
    ((generate_tasks_from_plan planX "u1").map Task.title).head? =
      some "Healthy Breakfast (500 kcal)" ∧
    round (500.75 : ℚ) = 501 ∧
    ("Healthy Breakfast (500 kcal)" : String) ≠ "Healthy Breakfast (501 kcal)" := by
  have ht : truncQ (500.75 : ℚ) = 500 := by simp only [truncQ]; norm_num
  refine ⟨?_, by norm_num [round_eq], by decide⟩
  simp [generate_tasks_from_plan, planX, ht]
  decide

/-- Claim C3, amended. Task derivation from a plan with 4 meals yields exactly
7 tasks: one per meal (type "meal", title `"{meal.name} ({int(meal.calories)}
kcal)"` — calories *truncated*, not rounded — due at the plan date + the
meal's time), one workout task due 18:00, one water task due 20:00, and one
sleep task due at `sleep_window.start`; for a synthesized plan the due times
are the fixed schedule 07:30, 12:30, 19:00, 16:00 (meals in source order),
18:00, 20:00, bed_time. -/
theorem tasks_from_plan_structure :
    (∀ (uid : String) (plan : DailyPlan), plan.meals.length = 4 →
        (generate_tasks_from_plan plan uid).length = 7) ∧
    (∀ (uid : String) (plan : DailyPlan),
        generate_tasks_from_plan plan uid =
          plan.meals.map (fun meal =>
            { user_id := uid, date := plan.date, type_ := "meal",
              title := meal.name ++ " (" ++ toString (truncQ meal.calories) ++ " kcal)",
              due_date := plan.date, due_time := meal.time : Task }) ++
          [{ user_id := uid, date := plan.date, type_ := "workout",
             title := pyTitle plan.workout.type_ ++ " Workout (" ++
               toString plan.workout.duration_minutes ++ " min)",
             due_date := plan.date, due_time := "18:00" },
           { user_id := uid, date := plan.date, type_ := "water",
             title := "Drink " ++ toString (truncQ plan.water_goal_ml) ++ "ml water",
             due_date := plan.date, due_time := "20:00" },
           { user_id := uid, date := plan.date, type_ := "sleep",
             title := "Sleep by " ++ plan.sleep_window.start,
             due_date := plan.date, due_time := plan.sleep_window.start }]) ∧
    (∀ (uid date : String) (profile : UserProfile),
        (generate_tasks_from_plan (generate_daily_plan uid date profile) uid).map
            Task.due_time =
          ["07:30", "12:30", "19:00", "16:00", "18:00", "20:00", profile.bed_time]) := by
  refine ⟨?_, ?_, ?_⟩
  · intro uid plan h
    simp [generate_tasks_from_plan, h]
  · intro uid plan
    rfl
  · intro uid date profile
    simp [generate_tasks_from_plan, generate_daily_plan]

/-- Witness for `tasks_from_plan_structure` on the concrete 4-meal plan
`planX`. -/
theorem tasks_from_plan_structure_witness :
    planX.meals.length = 4 ∧ (generate_tasks_from_plan planX "u1").length = 7 :=
  ⟨rfl, tasks_from_plan_structure.1 "u1" planX rfl⟩

/-- Witness for `profile_invariants_on_realistic_inputs` at height 170 cm,
weight 70 kg. -/
theorem profile_invariants_witness :
    (100 ≤ answersOk.height_cm ∧ 30 ≤ answersOk.weight_kg ∧
      answersOk.weight_kg ≤ 7.5 * answersOk.height_cm - 500) ∧
    (0 < (computeProfile "u1" answersOk).bmr ∧
     (computeProfile "u1" answersOk).bmr ≤ (computeProfile "u1" answersOk).tdee ∧
     0 ≤ (computeProfile "u1" answersOk).protein_g ∧
     0 ≤ (computeProfile "u1" answersOk).carbs_g ∧
     0 ≤ (computeProfile "u1" answersOk).fat_g) := by
  refine ⟨⟨by norm_num [answersOk], by norm_num [answersOk], by norm_num [answersOk]⟩, ?_⟩
  exact profile_invariants_on_realistic_inputs "u1" answersOk
    (by norm_num [answersOk]) (by norm_num [answersOk]) (by norm_num [answersOk])

/-- Claim C1. Evaluation of `update_user_progress` at the failing input: a
completed meal task on a day with no progress record yet.  The freshly
created `Progress` document stores `meals_completed = None` (the model
default), so `progress.get("meals_completed", 0)` returns `None` — the key is
present — and Python raises `TypeError` on `None + 1` instead of incrementing
to 1.  The default record is inserted but the increment never happens; since
`meals_completed` is only ever written by this (unreachable) branch, *every*
meal completion takes this path.  (The workout branch, which writes the
constant 30 without reading, works as claimed.) -/
theorem meal_completion_raises_typeerror :
    update_user_progress (some mealTaskX) none "u1" "2026-10-12" =
      (some { user_id := "u1", date := "2026-10-12" },
       some "TypeError: unsupported operand type(s) for +: NoneType and int") := by
  rfl

/-- Claim C4, counterexample. The claim says the progress record is ensured for
`(task.user, task.date)` — "not for some other date" — with numeric fields
defaulting to zero.  Completing `staleTaskX` (dated 2026-10-11) while the
server clock reads 2026-10-12 creates the record under 2026-10-12, and the
created record's numeric fields are `None` (null), not 0. -/
theorem progress_keyed_to_today_counterexample :
    staleTaskX.date = "2026-10-11" ∧
    (update_user_progress (some staleTaskX) none "u1" "2026-10-12").1 =
      some { user_id := "u1", date := "2026-10-12" } ∧
    ("2026-10-12" : String) ≠ staleTaskX.date ∧
    ({ user_id := "u1", date := "2026-10-12" } : Progress).meals_completed = none ∧
    ({ user_id := "u1", date := "2026-10-12" } : Progress).workouts_minutes = none :=
  ⟨rfl, rfl, by decide, rfl, rfl⟩

/-- Claim C4, amended. For every completed task found by the lookup,
`update_user_progress` ensures a `Progress` record exists for
`(user, today)` — today's server date, regardless of `task.date` — creating
one whose `Optional` numeric fields are all `None` (null, not zero) and whose
streak counters are 0 when no record for that key exists, before applying the
task's numeric update. -/
theorem progress_record_created_for_today (task : Task)
    (progress? : Option Progress) (u today : String) :
    ∃ r, (update_user_progress (some task) progress? u today).1 = some r ∧
      (progress? = none →
        r.user_id = u ∧ r.date = today ∧ r.weight_kg = none ∧ r.steps = none ∧
        r.water_ml = none ∧ r.fitness_score = none ∧ r.streak_current = 0 ∧
        r.streak_max = 0) := by
  rcases progress? with _ | p
  · by_cases h1 : task.type_ = "meal"
    · refine ⟨{ user_id := u, date := today }, ?_, ?_⟩
      · simp [update_user_progress, h1]
      · intro
        exact ⟨rfl, rfl, rfl, rfl, rfl, rfl, rfl, rfl⟩
    · by_cases h2 : task.type_ = "workout"
      · refine ⟨{ user_id := u, date := today, workouts_minutes := some 30 }, ?_, ?_⟩
        · simp [update_user_progress, h1, h2]
        · intro
          exact ⟨rfl, rfl, rfl, rfl, rfl, rfl, rfl, rfl⟩
      · refine ⟨{ user_id := u, date := today }, ?_, ?_⟩
        · simp [update_user_progress, h1, h2]
        · intro
          exact ⟨rfl, rfl, rfl, rfl, rfl, rfl, rfl, rfl⟩
  · rcases hm : p.meals_completed with _ | n
    · by_cases h1 : task.type_ = "meal"
      · exact ⟨p, by simp [update_user_progress, h1, hm], fun h => by simp at h⟩
      · by_cases h2 : task.type_ = "workout"
        · exact ⟨{ p with workouts_minutes := some 30 },
            by simp [update_user_progress, h1, h2], fun h => by simp at h⟩
        · exact ⟨p, by simp [update_user_progress, h1, h2], fun h => by simp at h⟩
    · by_cases h1 : task.type_ = "meal"
      · exact ⟨{ p with meals_completed := some (n + 1) },
          by simp [update_user_progress, h1, hm], fun h => by simp at h⟩
      · by_cases h2 : task.type_ = "workout"
        · exact ⟨{ p with workouts_minutes := some 30 },
            by simp [update_user_progress, h1, h2], fun h => by simp at h⟩
        · exact ⟨p, by simp [update_user_progress, h1, h2], fun h => by simp at h⟩

/-- Witness for `progress_record_created_for_today`: completing `staleTaskX`
with no prior record creates a record for user "u1" dated 2026-10-12. -/
theorem progress_record_created_for_today_witness :
    ∃ r, (update_user_progress (some staleTaskX) none "u1" "2026-10-12").1 = some r ∧
      r.user_id = "u1" ∧ r.date = "2026-10-12" := by
  obtain ⟨r, h1, h2⟩ :=
    progress_record_created_for_today staleTaskX none "u1" "2026-10-12"
  obtain ⟨hu, hd, _⟩ := h2 rfl
  exact ⟨r, h1, hu, hd⟩

/-- Claim C5, counterexample. The claim promises at most one stored plan per
user per date.  `save_onboarding_answers` inserts a fresh plan with no
existence check (server.py 627–632): submitting onboarding twice on the same
day leaves two plans stored for the same `(user, date)`. -/
theorem onboarding_duplicates_plan :
    planCount
      (onboarding_insert_plan
        (onboarding_insert_plan [] "u1" "2026-10-12" profileOk)
        "u1" "2026-10-12" profileOk)
      "u1" "2026-10-12" = 2 := by
  rfl

/-- Claim C5, amended. The plan-request endpoint is idempotent: if a plan is
already stored for `(user, date)` it is returned unchanged and the store is
untouched; if none is stored, the plan synthesized from the profile is
deterministic, gets stored, and an immediately repeated request returns the
identical plan without storing another — the request path alone keeps at most
one plan per `(user, date)`.  (The at-most-one-stored-plan guarantee does not
extend to repeated onboarding, which inserts unconditionally — see
`onboarding_duplicates_plan`.) -/
theorem plan_request_idempotent :
    (∀ (store : List DailyPlan) (profile? : Option UserProfile)
        (uid today : String) (plan : DailyPlan),
        find_plan store uid today = some plan →
        get_today_plan store profile? uid today = .ok (plan, store)) ∧
    (∀ (store : List DailyPlan) (profile : UserProfile) (uid today : String),
        find_plan store uid today = none →
        get_today_plan store (some profile) uid today =
          .ok (generate_daily_plan uid today profile,
               store ++ [generate_daily_plan uid today profile]) ∧
        get_today_plan (store ++ [generate_daily_plan uid today profile])
            (some profile) uid today =
          .ok (generate_daily_plan uid today profile,
               store ++ [generate_daily_plan uid today profile]) ∧
        planCount (store ++ [generate_daily_plan uid today profile]) uid today =
          planCount store uid today + 1) := by
  constructor
  · intro store profile? uid today plan h
    simp [get_today_plan, h]
  · intro store profile uid today h
    have hkey : planKeyMatches uid today (generate_daily_plan uid today profile) = true := by
      simp [planKeyMatches, generate_daily_plan]
    refine ⟨by simp [get_today_plan, h], ?_, ?_⟩
    · have hfind : find_plan (store ++ [generate_daily_plan uid today profile]) uid today =
          some (generate_daily_plan uid today profile) := by
        simp only [find_plan] at h ⊢
        rw [List.find?_append, h]
        simp [hkey]
      simp [get_today_plan, hfind]
    · simp [planCount, List.filter_append, hkey]

/-- Witness for `plan_request_idempotent` starting from the empty store with
profile `profileOk`. -/
theorem plan_request_idempotent_witness :
    find_plan [] "u1" "2026-10-12" = none ∧
    (get_today_plan [] (some profileOk) "u1" "2026-10-12" =
       .ok (generate_daily_plan "u1" "2026-10-12" profileOk,
            [] ++ [generate_daily_plan "u1" "2026-10-12" profileOk]) ∧
     get_today_plan ([] ++ [generate_daily_plan "u1" "2026-10-12" profileOk])
         (some profileOk) "u1" "2026-10-12" =
       .ok (generate_daily_plan "u1" "2026-10-12" profileOk,
            [] ++ [generate_daily_plan "u1" "2026-10-12" profileOk]) ∧
     planCount ([] ++ [generate_daily_plan "u1" "2026-10-12" profileOk])
         "u1" "2026-10-12" =
       planCount ([] : List DailyPlan) "u1" "2026-10-12" + 1) :=
  ⟨rfl, plan_request_idempotent.2 [] profileOk "u1" "2026-10-12" rfl⟩

end FitnessTracker
